import Mathlib

/-!
Verification of the persistent MCP subprocess RPC client of the edgradio
repository (`src/clients/base_mcp_client.py` and the per-call domain
clients such as `src/clients/bubble_mcp_client.py`).

The Python code is embedded shallowly: instance attributes of
`BaseMCPClient` become fields of `ClientState`, every effectful library
operation (path lookup, subprocess spawn via `stdio_client.__aenter__`,
`ClientSession.__aenter__`, `initialize`, `session.call_tool`,
`json.loads`, context `__aexit__`) is resolved by an explicit environment
oracle `Env`, and exceptions become `Except` values carrying the raised
exception's class and message.  Observable side effects (number of
`_start_session` invocations, subprocess spawns, channel round trips and
context closes) are recorded in counters threaded through the state.
-/

namespace EdGradio

/-- A Python value as produced by `json.loads` (restricted to the JSON
universe, which is all the tool responses can decode to). -/
inductive PyVal where
  | obj : List (String × PyVal) → PyVal
  | arr : List PyVal → PyVal
  | str : String → PyVal
  | num : Int → PyVal
  | boolV : Bool → PyVal
  | null : PyVal

/-- A Python exception: whether it is an instance of the client's bound
error class (`self._error_class`), its message (`str(e)`), and the
exception chained with `raise ... from e`, if any. -/
inductive Exc where
  | mk (isBound : Bool) (msg : String) (cause : Option Exc)

/-- Is the exception an instance of the client's bound error class? -/
def Exc.isBound : Exc → Bool
  | .mk b _ _ => b

/-- The exception's message, `str(e)`. -/
def Exc.msg : Exc → String
  | .mk _ m _ => m

/-- The chained `__cause__` exception, if any. -/
def Exc.cause : Exc → Option Exc
  | .mk _ _ c => c

/-- One content fragment of an MCP `CallToolResult`: either a fragment
that has a `text` attribute (`hasattr(item, "text")`) or one that does
not. -/
inductive ContentItem where
  | textItem (text : String)
  | nonText
deriving DecidableEq

/-- `item.text` for fragments that carry text. -/
def itemText : ContentItem → Option String
  | .textItem t => some t
  | .nonText => none

/-- The response of `session.call_tool`: a list of content fragments. -/
structure CallToolResult where
  content : List ContentItem
deriving DecidableEq

/-- Outcome of the effectful part of one `_start_session` run (after the
configuration checks have passed): the spawn (`stdio_cm.__aenter__`), the
session enter (`session_cm.__aenter__`) or the `initialize` handshake may
raise, or all of them succeed. -/
inductive StartOutcome where
  | ok
  | failSpawn (msg : String)
  | failSessionEnter (msg : String)
  | failInit (msg : String)
deriving DecidableEq

/-- The environment oracle: resolves every call the client makes into
the Python standard library, the `mcp` library and the remote server.
`startOutcome` is indexed by the spawn counter, `callOutcome` by the tool
name and the channel round-trip counter, `closeRaises` by the close
counter. -/
structure Env where
  expanduser : String → String
  fileExists : String → Bool
  startOutcome : Nat → StartOutcome
  callOutcome : String → Nat → Except String CallToolResult
  jsonDecode : String → Option PyVal
  closeRaises : Nat → Bool

/-- The mutable attributes of a `BaseMCPClient` instance, plus counters
recording its observable side effects.  `server_path`, `session`,
`stdio_cm` and `session_cm` embed `_server_path`, `_session`, `_stdio_cm`
and `_session_cm`; handles are identified by the `Nat` drawn from
`nextId` when the corresponding object is created. -/
structure ClientState where
  server_path : Option String
  session : Option Nat
  stdio_cm : Option Nat
  session_cm : Option Nat
  nextId : Nat
  startCount : Nat
  spawnCount : Nat
  ioCount : Nat
  closeCount : Nat
deriving DecidableEq

/-- Python truthiness of `not self._server_path`: `None` and the empty
string are falsy. -/
def pathMissing : Option String → Bool
  | none => true
  | some s => s.isEmpty

/-- `BaseMCPClient._start_session`: configuration checks, then
`self._stdio_cm = stdio_client(params)`, spawn, `self._session_cm =
ClientSession(read, write)`, session enter, `initialize`, and finally
`self._session = session`.  Field writes happen exactly where the Python
statements sit, so a failure part-way leaves the earlier writes in
place. -/
def start_session (env : Env) (s0 : ClientState) : Except Exc Nat × ClientState :=
  let s := { s0 with startCount := s0.startCount + 1 }
  if pathMissing s.server_path then
    (.error (.mk true "MCP server path not configured" none), s)
  else
    let path := env.expanduser (s.server_path.getD "")
    if env.fileExists path = false then
      (.error (.mk true ("MCP server script not found: " ++ path) none), s)
    else
      let s := { s with stdio_cm := some s.nextId, nextId := s.nextId + 1 }
      let k := s.spawnCount
      let s := { s with spawnCount := s.spawnCount + 1 }
      match env.startOutcome k with
      | .failSpawn m => (.error (.mk false m none), s)
      | .failSessionEnter m =>
        let s := { s with session_cm := some s.nextId, nextId := s.nextId + 1 }
        (.error (.mk false m none), s)
      | .failInit m =>
        let s := { s with session_cm := some s.nextId, nextId := s.nextId + 1 }
        (.error (.mk false m none), s)
      | .ok =>
        let sid := s.nextId
        let s := { s with session_cm := some sid, nextId := s.nextId + 1,
                          session := some sid }
        (.ok sid, s)

/-- A context manager `__aexit__` whose exception is swallowed by
`except Exception: pass`. -/
def closeSwallow (raised : Bool) : Unit :=
  match (if raised then Except.error "close failed" else Except.ok ()) with
  | .ok u => u
  | .error _ => ()

/-- `BaseMCPClient._reset`: close `_session_cm` then `_stdio_cm` (each
guarded by a `None` check, each close error swallowed), then clear all
three handle attributes. -/
def reset (env : Env) (s0 : ClientState) : ClientState :=
  let s1 :=
    match s0.session_cm with
    | none => s0
    | some _ =>
      let _u := closeSwallow (env.closeRaises s0.closeCount)
      { s0 with closeCount := s0.closeCount + 1 }
  let s2 :=
    match s1.stdio_cm with
    | none => s1
    | some _ =>
      let _u := closeSwallow (env.closeRaises s1.closeCount)
      { s1 with closeCount := s1.closeCount + 1 }
  { s2 with session := none, session_cm := none, stdio_cm := none }

/-- `BaseMCPClient._ensure_session`: start a session if `_session is
None`, then return `self._session`. -/
def ensure_session (env : Env) (s : ClientState) :
    Except Exc (Option Nat) × ClientState :=
  match s.session with
  | some sid => (.ok (some sid), s)
  | none =>
    match start_session env s with
    | (.error e, s1) => (.error e, s1)
    | (.ok _, s1) => (.ok s1.session, s1)

/-- `"\n".join(item.text for item in result.content if hasattr(item, "text"))`. -/
def joinedText (r : CallToolResult) : String :=
  String.intercalate "\n" (r.content.filterMap itemText)

/-- The no-output marker `{"status": "success", "message": "Tool executed (no output)"}`. -/
def markerResult : PyVal :=
  .obj [("status", .str "success"), ("message", .str "Tool executed (no output)")]

/-- The raw-text fallback `{"raw_text": text}`. -/
def rawTextResult (t : String) : PyVal :=
  .obj [("raw_text", .str t)]

/-- The result-decoding block of `call_tool`: if `result.content` is
truthy, join the text fragments and try `json.loads`, falling back to
the raw-text wrapper on `JSONDecodeError`; otherwise return the
no-output marker. -/
def decodeResult (env : Env) (r : CallToolResult) : PyVal :=
  if r.content.isEmpty = false then
    let text := joinedText r
    match env.jsonDecode text with
    | some v => v
    | none => rawTextResult text
  else
    markerResult

/-- The body of one `try` block of `call_tool`: ensure a session, issue
the remote call over the channel, decode the response.  Any raised
exception surfaces as `.error`. -/
def call_attempt (env : Env) (tool_name : String) (s : ClientState) :
    Except Exc PyVal × ClientState :=
  match ensure_session env s with
  | (.error e, s1) => (.error e, s1)
  | (.ok _, s1) =>
    let k := s1.ioCount
    let s2 := { s1 with ioCount := s1.ioCount + 1 }
    match env.callOutcome tool_name k with
    | .error m => (.error (.mk false m none), s2)
    | .ok r => (.ok (decodeResult env r), s2)

/-- `BaseMCPClient.call_tool`: `for attempt in range(2)`, unrolled.  On
a first-attempt failure, `_reset` then continue; on a second-attempt
failure, raise `self._error_class(f"Tool call failed: {tool_name} - {e}")
from e` without any further reset. -/
def call_tool (env : Env) (tool_name : String) (s : ClientState) :
    Except Exc PyVal × ClientState :=
  match call_attempt env tool_name s with
  | (.ok v, s1) => (.ok v, s1)
  | (.error _e0, s1) =>
    let s2 := reset env s1
    match call_attempt env tool_name s2 with
    | (.ok v, s3) => (.ok v, s3)
    | (.error e1, s3) =>
      (.error (.mk true ("Tool call failed: " ++ tool_name ++ " - " ++ e1.msg)
        (some e1)), s3)

/-- Counters of a per-call domain client (`BubbleMCPClient`, `MCPClient`,
`LatexMCPClient`, `RegradeMCPClient`, `ScrubMCPClient`).  These clients
keep no session between calls, so the only state is the side-effect
instrumentation. -/
structure FreshState where
  spawnCount : Nat
  ioCount : Nat
deriving DecidableEq

/-- `BubbleMCPClient.call_tool` (the same shape as `MCPClient`,
`LatexMCPClient`, `RegradeMCPClient` and `ScrubMCPClient`):
`async with get_bubble_mcp_session() as session:` opens a brand-new
session for this one call (configuration checks, spawn, handshake,
all outside the `try`), then a single `session.call_tool` attempt whose
failure is wrapped as `BubbleMCPClientError(f"Tool call failed: ...")`.
There is no reset-and-retry: any failure surfaces immediately. -/
def bubble_call_tool (env : Env) (serverPath : Option String)
    (tool_name : String) (st0 : FreshState) : Except Exc PyVal × FreshState :=
  if pathMissing serverPath then
    (.error (.mk true "BUBBLE_MCP_SERVER_PATH not configured" none), st0)
  else
    let path := env.expanduser (serverPath.getD "")
    if env.fileExists path = false then
      (.error (.mk true ("Bubble MCP server script not found: " ++ path) none), st0)
    else
      let k := st0.spawnCount
      let st := { st0 with spawnCount := st0.spawnCount + 1 }
      match env.startOutcome k with
      | .failSpawn m => (.error (.mk false m none), st)
      | .failSessionEnter m => (.error (.mk false m none), st)
      | .failInit m => (.error (.mk false m none), st)
      | .ok =>
        let k2 := st.ioCount
        let st := { st with ioCount := st.ioCount + 1 }
        match env.callOutcome tool_name k2 with
        | .error m =>
          (.error (.mk true ("Tool call failed: " ++ tool_name ++ " - " ++ m)
            (some (.mk false m none))), st)
        | .ok r => (.ok (decodeResult env r), st)

/-- Is this `Except` payload from the channel an exception? -/
def isErrS (x : Except String CallToolResult) : Bool :=
  match x with
  | .error _ => true
  | .ok _ => false

/-- Did the operation raise an instance of the client's bound error
class? -/
def raisesBound (x : Except Exc PyVal) : Bool :=
  match x with
  | .error e => e.isBound
  | .ok _ => false

/-- Did the operation raise? -/
def raisesAny (x : Except Exc PyVal) : Bool :=
  match x with
  | .error _ => true
  | .ok _ => false

/-- Is the Python value a mapping (a `dict`)? -/
def isMapping : PyVal → Bool
  | .obj _ => true
  | _ => false

/-! ### Concrete fixtures used by witnesses and counterexamples -/

/-- A freshly constructed client with a configured server path. -/
def freshClient : ClientState :=
  { server_path := some "/srv/tool_server.py", session := none,
    stdio_cm := none, session_cm := none, nextId := 0,
    startCount := 0, spawnCount := 0, ioCount := 0, closeCount := 0 }

/-- A client that already holds a live session (as after one successful
call): session id 2, with the stdio and session context handles set. -/
def liveClient : ClientState :=
  { server_path := some "/srv/tool_server.py", session := some 1,
    stdio_cm := some 0, session_cm := some 1, nextId := 2,
    startCount := 1, spawnCount := 1, ioCount := 1, closeCount := 0 }

/-- A freshly constructed client whose server path was never
configured. -/
def unconfiguredClient : ClientState :=
  { server_path := none, session := none,
    stdio_cm := none, session_cm := none, nextId := 0,
    startCount := 0, spawnCount := 0, ioCount := 0, closeCount := 0 }

/-- Environment where the server exists and sessions start fine, but
every channel call raises `"boom"`. -/
def envAllCallsFail : Env :=
  { expanduser := id, fileExists := fun _ => true,
    startOutcome := fun _ => .ok,
    callOutcome := fun _ _ => .error "boom",
    jsonDecode := fun _ => none,
    closeRaises := fun _ => false }

/-- Environment where every spawn attempt raises `"spawn failed"`. -/
def envSpawnFails : Env :=
  { expanduser := id, fileExists := fun _ => true,
    startOutcome := fun _ => .failSpawn "spawn failed",
    callOutcome := fun _ _ => .error "boom",
    jsonDecode := fun _ => none,
    closeRaises := fun _ => false }

/-- Environment where the first channel call raises `"pipe broke"` and
every later one succeeds with one text fragment `"[]"`, which decodes to
the empty JSON array. -/
def envRecovers : Env :=
  { expanduser := id, fileExists := fun _ => true,
    startOutcome := fun _ => .ok,
    callOutcome := fun _ k =>
      if k = 0 then .error "pipe broke"
      else .ok { content := [.textItem "[]"] },
    jsonDecode := fun s => if s = "[]" then some (.arr []) else none,
    closeRaises := fun _ => false }

/-- Environment where the `initialize` handshake raises `"handshake
failed"` on every session start. -/
def envInitFails : Env :=
  { expanduser := id, fileExists := fun _ => true,
    startOutcome := fun _ => .failInit "handshake failed",
    callOutcome := fun _ _ => .error "boom",
    jsonDecode := fun _ => none,
    closeRaises := fun _ => false }

/-- Environment where the tool responds with the text `"[1, 2]"`, which
`json.loads` decodes to a JSON array (not a mapping). -/
def envArrayResult : Env :=
  { expanduser := id, fileExists := fun _ => true,
    startOutcome := fun _ => .ok,
    callOutcome := fun _ _ => .ok { content := [.textItem "[1, 2]"] },
    jsonDecode := fun s => if s = "[1, 2]" then some (.arr [.num 1, .num 2]) else none,
    closeRaises := fun _ => false }

/-- Environment where the tool responds with the non-JSON text
`"plain text result"`. -/
def envPlainText : Env :=
  { expanduser := id, fileExists := fun _ => true,
    startOutcome := fun _ => .ok,
    callOutcome := fun _ _ => .ok { content := [.textItem "plain text result"] },
    jsonDecode := fun _ => none,
    closeRaises := fun _ => false }

/-- Environment where the tool responds with two fragments, neither of
which carries a `text` attribute. -/
def envNoText : Env :=
  { expanduser := id, fileExists := fun _ => true,
    startOutcome := fun _ => .ok,
    callOutcome := fun _ _ => .ok { content := [.nonText, .nonText] },
    jsonDecode := fun _ => none,
    closeRaises := fun _ => false }

/-- The client state after a fresh client's first session start fails
at the spawn step: the stdio handle is retained, the session is not. -/
def stSpawnFailPost : ClientState :=
  { server_path := some "/srv/tool_server.py", session := none,
    stdio_cm := some 0, session_cm := none, nextId := 1,
    startCount := 1, spawnCount := 1, ioCount := 0, closeCount := 0 }

/-- The client state after a fresh client's first attempt started a
session and then failed its channel call. -/
def stAfterFirstFail : ClientState :=
  { server_path := some "/srv/tool_server.py", session := some 1,
    stdio_cm := some 0, session_cm := some 1, nextId := 2,
    startCount := 1, spawnCount := 1, ioCount := 1, closeCount := 0 }

/-- The client state after a failed first attempt, a reset, and a
successful second attempt (or a second failed channel call). -/
def stAfterSecond : ClientState :=
  { server_path := some "/srv/tool_server.py", session := some 3,
    stdio_cm := some 2, session_cm := some 3, nextId := 4,
    startCount := 2, spawnCount := 2, ioCount := 2, closeCount := 2 }

/-- The `ConfigurationError`/`NotFoundError` message `_start_session`
raises for a bad path: the non-empty check fires first, then the
existence check. -/
def configMsg (env : Env) (s : ClientState) : String :=
  if pathMissing s.server_path then "MCP server path not configured"
  else "MCP server script not found: " ++ env.expanduser (s.server_path.getD "")

/-! ### Helper lemmas -/

/-- `_start_session` increments the start counter once, performs at most
one spawn, and leaves the configured path and round-trip counter
untouched, whatever its outcome. -/
theorem start_session_counts (env : Env) (s : ClientState) :
    (start_session env s).2.startCount = s.startCount + 1 ∧
    (start_session env s).2.spawnCount ≤ s.spawnCount + 1 ∧
    (start_session env s).2.server_path = s.server_path ∧
    (start_session env s).2.ioCount = s.ioCount := by
  unfold start_session
  dsimp only
  split
  · exact ⟨rfl, Nat.le_succ _, rfl, rfl⟩
  · split
    · exact ⟨rfl, Nat.le_succ _, rfl, rfl⟩
    · split <;> exact ⟨rfl, Nat.le_refl _, rfl, rfl⟩

/-- `_reset` clears the three handle fields and touches no counter other
than the close counter. -/
theorem reset_fields (env : Env) (s : ClientState) :
    (reset env s).session = none ∧ (reset env s).session_cm = none ∧
    (reset env s).stdio_cm = none ∧ (reset env s).startCount = s.startCount ∧
    (reset env s).spawnCount = s.spawnCount ∧ (reset env s).ioCount = s.ioCount ∧
    (reset env s).server_path = s.server_path := by
  obtain ⟨sp, ses, stc, sec, ni, c1, c2, c3, c4⟩ := s
  cases sec <;> cases stc <;>
    exact ⟨rfl, rfl, rfl, rfl, rfl, rfl, rfl⟩

/-- `_reset` on a state with no session and no handles is the
identity. -/
theorem reset_noop (env : Env) (s : ClientState) (h1 : s.session = none)
    (h2 : s.session_cm = none) (h3 : s.stdio_cm = none) :
    reset env s = s := by
  obtain ⟨sp, ses, stc, sec, ni, c1, c2, c3, c4⟩ := s
  simp only [ClientState.session] at h1
  simp only [ClientState.session_cm] at h2
  simp only [ClientState.stdio_cm] at h3
  subst h1; subst h2; subst h3
  rfl

/-- `_ensure_session` on a live session returns it unchanged. -/
theorem ensure_session_live (env : Env) (s : ClientState) (sid : Nat)
    (h : s.session = some sid) :
    ensure_session env s = (.ok (some sid), s) := by
  unfold ensure_session
  rw [h]

/-- A successful `_ensure_session` leaves exactly the returned session
installed. -/
theorem ensure_session_ok_session (env : Env) (s : ClientState) (sid : Nat)
    (h : (ensure_session env s).1 = .ok (some sid)) :
    (ensure_session env s).2.session = some sid := by
  unfold ensure_session at h ⊢
  generalize hs : s.session = ses at h ⊢
  cases ses with
  | some sid' =>
    dsimp only at h ⊢
    injection h with h1
    rw [hs]
    exact h1
  | none =>
    rcases hstart : start_session env s with ⟨res, s1⟩
    rw [hstart] at h
    cases res with
    | error e => simp at h
    | ok v =>
      dsimp only at h ⊢
      exact Except.ok.inj h

/-- A failed `_start_session` never touches the `_session` attribute. -/
theorem start_session_error_session (env : Env) (s : ClientState) (e : Exc)
    (s1 : ClientState) (h : start_session env s = (.error e, s1)) :
    s1.session = s.session := by
  unfold start_session at h
  dsimp only at h
  split at h
  · injection h with h1 h2
    subst h2; rfl
  · split at h
    · injection h with h1 h2
      subst h2; rfl
    · split at h
      · injection h with h1 h2
        subst h2; rfl
      · injection h with h1 h2
        subst h2; rfl
      · injection h with h1 h2
        subst h2; rfl
      · injection h with h1 h2
        exact Except.noConfusion h1

/-- When no session is live and every channel call raises, every single
attempt of `call_tool` fails, performing exactly one `_start_session`
and at most one spawn and preserving the configured path. -/
theorem call_attempt_fails (env : Env) (t : String) (s : ClientState)
    (hs : s.session = none)
    (hc : ∀ tn k, isErrS (env.callOutcome tn k) = true) :
    ∃ e s1, call_attempt env t s = (.error e, s1) ∧
      s1.startCount = s.startCount + 1 ∧ s1.spawnCount ≤ s.spawnCount + 1 ∧
      s1.server_path = s.server_path := by
  obtain ⟨hcnt, hspawn, hpath, hio⟩ := start_session_counts env s
  unfold call_attempt ensure_session
  rw [hs]
  rcases hstart : start_session env s with ⟨res, s1⟩
  rw [hstart] at hcnt hspawn hpath hio
  cases res with
  | error e => exact ⟨e, s1, rfl, hcnt, hspawn, hpath⟩
  | ok v =>
    simp only
    rcases hcall : env.callOutcome t s1.ioCount with m | r
    · exact ⟨.mk false m none, { s1 with ioCount := s1.ioCount + 1 }, rfl,
        hcnt, hspawn, hpath⟩
    · have := hc t s1.ioCount
      rw [hcall] at this
      simp [isErrS] at this

/-- The post-state of `_reset` does not depend on whether the swallowed
close operations raised. -/
theorem reset_env_irrelevant (env env' : Env) (s : ClientState) :
    reset env s = reset env' s := by
  obtain ⟨sp, ses, stc, sec, ni, c1, c2, c3, c4⟩ := s
  cases sec <;> cases stc <;> rfl

/-- `_ensure_session` performs at most one spawn. -/
theorem ensure_session_spawn (env : Env) (s : ClientState) :
    (ensure_session env s).2.spawnCount ≤ s.spawnCount + 1 := by
  unfold ensure_session
  cases hs : s.session with
  | some sid => exact Nat.le_succ _
  | none =>
    rcases hstart : start_session env s with ⟨res, s1⟩
    have hc := (start_session_counts env s).2.1
    rw [hstart] at hc
    cases res <;> exact hc

/-- When the configured path is missing or does not exist,
`_start_session` raises the bound configuration error without spawning
anything, touching only the start counter. -/
theorem start_session_config_fail (env : Env) (s : ClientState)
    (hbad : pathMissing s.server_path = true ∨
      env.fileExists (env.expanduser (s.server_path.getD "")) = false) :
    start_session env s = (.error (.mk true (configMsg env s) none),
      { s with startCount := s.startCount + 1 }) := by
  unfold start_session configMsg
  by_cases hp : pathMissing s.server_path = true
  · simp [hp]
  · have hp' : pathMissing s.server_path = false := by
      simpa using hp
    rcases hbad with hb | hb
    · exact absurd hb hp
    · simp [hp', hb]

/-! ### Claim theorems -/

/-- C1, counterexample.  The claim says every invocation of
`BaseMCPClient.call_tool` whose underlying channel operation fails on
every attempt performs exactly two session-start attempts.  Starting
from a client that already holds a live session (`liveClient`, with
`startCount = 1`), an invocation in which every channel call raises
performs only one `_start_session` invocation (the post-reset restart of
attempt 2), not two, while still raising the bound error class. -/
theorem c1_live_session_single_start :
    (call_tool envAllCallsFail "grade_job" liveClient).2.startCount =
      liveClient.startCount + 1 ∧
    raisesBound (call_tool envAllCallsFail "grade_job" liveClient).1 = true :=
  ⟨rfl, rfl⟩

/-- C1, amended.  When no session is live at entry and every channel
call raises, `call_tool` performs exactly two `_start_session`
invocations, spawns at most two subprocesses, and raises the client's
bound error class. -/
theorem c1_call_tool_bounded_retry (env : Env) (t : String) (s : ClientState)
    (hs : s.session = none)
    (hc : ∀ tn k, isErrS (env.callOutcome tn k) = true) :
    (call_tool env t s).2.startCount = s.startCount + 2 ∧
    (call_tool env t s).2.spawnCount ≤ s.spawnCount + 2 ∧
    raisesBound (call_tool env t s).1 = true := by
  obtain ⟨e0, s1, h0, h1c, h1sp, h1p⟩ := call_attempt_fails env t s hs hc
  obtain ⟨hrs, hrcm, hrst, hrc, hrsp, hrio, hrp⟩ := reset_fields env s1
  obtain ⟨e1, s3, h1, h3c, h3sp, h3p⟩ :=
    call_attempt_fails env t (reset env s1) hrs hc
  unfold call_tool
  rw [h0]
  dsimp only
  rw [h1]
  dsimp only
  refine ⟨by omega, by omega, rfl⟩

/-- C1, witness for the amended theorem at a concrete failing
environment and a fresh client. -/
theorem c1_call_tool_bounded_retry_witness :
    freshClient.session = none ∧
    ((call_tool envAllCallsFail "grade_job" freshClient).2.startCount =
        freshClient.startCount + 2 ∧
      (call_tool envAllCallsFail "grade_job" freshClient).2.spawnCount ≤
        freshClient.spawnCount + 2 ∧
      raisesBound (call_tool envAllCallsFail "grade_job" freshClient).1 = true) :=
  ⟨rfl, c1_call_tool_bounded_retry envAllCallsFail "grade_job" freshClient rfl
    (fun _ _ => rfl)⟩

/-- C2, counterexample.  The claim says any failure of `_start_session`
leaves the manager with no channel or session handles retained,
including after `call_tool` raises.  With an environment whose
`initialize` handshake always fails, `call_tool` on a fresh client
raises the bound error while retaining both the stdio and the session
context handles set by the second, un-reset, failed start. -/
theorem c2_handles_retained_after_failure :
    raisesBound (call_tool envInitFails "grade_job" freshClient).1 = true ∧
    (call_tool envInitFails "grade_job" freshClient).2.stdio_cm = some 2 ∧
    (call_tool envInitFails "grade_job" freshClient).2.session_cm = some 3 ∧
    (call_tool envInitFails "grade_job" freshClient).2.session = none :=
  ⟨rfl, rfl, rfl, rfl⟩

/-- C2, amended.  A failed `_start_session` never installs a session
handle (`_session` is left exactly as it was, so no partially
initialized session is ever returned to callers), and `_reset` — run by
`call_tool` after a first-attempt failure — clears the session and both
context handles; the context handles may however remain set when
`call_tool` raises after a second-attempt start failure. -/
theorem c2_failed_start_keeps_session_absent :
    (∀ (env : Env) (s : ClientState) (e : Exc) (s1 : ClientState),
      start_session env s = (.error e, s1) → s1.session = s.session) ∧
    (∀ (env : Env) (s : ClientState),
      (reset env s).session = none ∧ (reset env s).session_cm = none ∧
        (reset env s).stdio_cm = none) :=
  ⟨start_session_error_session,
   fun env s =>
    ⟨(reset_fields env s).1, (reset_fields env s).2.1, (reset_fields env s).2.2.1⟩⟩

/-- C2, witness: the spawn-failure run on a fresh client leaves
`_session` untouched. -/
theorem c2_failed_start_keeps_session_absent_witness :
    start_session envSpawnFails freshClient =
      (.error (.mk false "spawn failed" none), stSpawnFailPost) ∧
    stSpawnFailPost.session = freshClient.session :=
  ⟨rfl, c2_failed_start_keeps_session_absent.1 envSpawnFails freshClient
    (.mk false "spawn failed" none) stSpawnFailPost rfl⟩

/-- C3, counterexample.  The claim says every Domain Client
specialization's `call_tool` uses a persistent session and retries once
through a fresh session before surfacing an error.  Under an
environment in which the first channel call fails and any later one
succeeds, `BubbleMCPClient.call_tool` (one of the cited clients)
surfaces the error after a single channel round trip and a single spawn
— no retry and no persistent session — while `BaseMCPClient.call_tool`
under the same environment recovers and succeeds. -/
theorem c3_bubble_client_no_retry :
    bubble_call_tool envRecovers (some "/srv/bubble_server.py")
        "create_bubble_test" ⟨0, 0⟩ =
      (.error (.mk true "Tool call failed: create_bubble_test - pipe broke"
        (some (.mk false "pipe broke" none))), ⟨1, 1⟩) ∧
    (call_tool envRecovers "create_bubble_test" freshClient).1 = .ok (.arr []) :=
  ⟨rfl, rfl⟩

/-- C3, amended.  Domain clients built on `BaseMCPClient` (Email,
Testgen) get the ensure-live-session, retry-once-through-a-fresh-session
behavior: a failed first attempt followed by a successful post-reset
attempt yields that attempt's result with no error surfaced.  The
stand-alone per-call clients (`MCPClient`, `BubbleMCPClient`,
`LatexMCPClient`, `RegradeMCPClient`, `ScrubMCPClient`) open a fresh
session for each call and perform at most one channel round trip and at
most one spawn per invocation — they never retry. -/
theorem c3_retry_only_in_base_client :
    (∀ (env : Env) (t : String) (s : ClientState) (e0 : Exc)
        (s1 : ClientState) (v : PyVal) (s2' : ClientState),
      call_attempt env t s = (.error e0, s1) →
      call_attempt env t (reset env s1) = (.ok v, s2') →
      call_tool env t s = (.ok v, s2')) ∧
    (∀ (env : Env) (sp : Option String) (t : String) (st : FreshState),
      (bubble_call_tool env sp t st).2.ioCount ≤ st.ioCount + 1 ∧
      (bubble_call_tool env sp t st).2.spawnCount ≤ st.spawnCount + 1) := by
  constructor
  · intro env t s e0 s1 v s2' h0 h1
    unfold call_tool
    rw [h0]
    dsimp only
    rw [h1]
  · intro env sp t st
    unfold bubble_call_tool
    dsimp only
    split
    · exact ⟨Nat.le_succ _, Nat.le_succ _⟩
    · split
      · exact ⟨Nat.le_succ _, Nat.le_succ _⟩
      · split
        · exact ⟨Nat.le_succ _, Nat.le_refl _⟩
        · exact ⟨Nat.le_succ _, Nat.le_refl _⟩
        · exact ⟨Nat.le_succ _, Nat.le_refl _⟩
        · split <;> exact ⟨Nat.le_refl _, Nat.le_refl _⟩

/-- C3, witness: the base client's reconnect-and-retry at the concrete
recovering environment. -/
theorem c3_retry_only_in_base_client_witness :
    call_attempt envRecovers "create_bubble_test" freshClient =
      (.error (.mk false "pipe broke" none), stAfterFirstFail) ∧
    call_tool envRecovers "create_bubble_test" freshClient =
      (.ok (.arr []), stAfterSecond) :=
  ⟨rfl, c3_retry_only_in_base_client.1 envRecovers "create_bubble_test"
    freshClient (.mk false "pipe broke" none) stAfterFirstFail (.arr [])
    stAfterSecond rfl rfl⟩

/-- On a live session, one attempt of `call_tool` whose channel call
succeeds consumes one round trip and returns the decoded result. -/
theorem call_attempt_live (env : Env) (t : String) (s : ClientState)
    (sid : Nat) (r : CallToolResult) (hs : s.session = some sid)
    (hc : env.callOutcome t s.ioCount = .ok r) :
    call_attempt env t s =
      (.ok (decodeResult env r), { s with ioCount := s.ioCount + 1 }) := by
  unfold call_attempt
  rw [ensure_session_live env s sid hs]
  dsimp only
  rw [hc]

/-- C4, code-bug evaluation.  The claim (and the annotated return type
`dict[str, Any]`) says `call_tool` always returns a mapping; but when
the response text decodes to a non-object JSON value — here the array
`"[1, 2]"` — `json.loads`'s result is returned as-is, which is not a
mapping. -/
theorem c4_nonmapping_result_on_array_payload :
    (call_tool envArrayResult "get_scores" freshClient).1 =
      .ok (.arr [.num 1, .num 2]) ∧
    isMapping (.arr [.num 1, .num 2]) = false :=
  ⟨rfl, rfl⟩

/-- C5: over a live session, a successful call is decoded exactly as the
claim states: with textual content, the text of the text-bearing
fragments is joined in order and JSON-decoded, a decode failure
yielding the raw text under `"raw_text"`; with no content at all, the
no-output marker `{"status": "success", "message": "Tool executed (no
output)"}` is returned. -/
theorem c5_result_decoding (env : Env) (t : String) (s : ClientState)
    (sid : Nat) (r : CallToolResult) (hs : s.session = some sid)
    (hc : env.callOutcome t s.ioCount = .ok r) :
    (call_tool env t s).1 = .ok (
      if r.content.isEmpty then
        PyVal.obj [("status", .str "success"),
                   ("message", .str "Tool executed (no output)")]
      else
        match env.jsonDecode
            (String.intercalate "\n" (r.content.filterMap itemText)) with
        | some v => v
        | none =>
          PyVal.obj [("raw_text",
            .str (String.intercalate "\n" (r.content.filterMap itemText)))]) := by
  unfold call_tool
  rw [call_attempt_live env t s sid r hs hc]
  dsimp only
  unfold decodeResult joinedText markerResult rawTextResult
  cases hr : r.content.isEmpty <;> simp [hr]

/-- C5, witness: a live session receiving the non-JSON text
`"plain text result"` yields the raw-text fallback. -/
theorem c5_result_decoding_witness :
    liveClient.session = some 1 ∧
    (call_tool envPlainText "echo" liveClient).1 =
      .ok (.obj [("raw_text", .str "plain text result")]) :=
  ⟨rfl, c5_result_decoding envPlainText "echo" liveClient 1
    { content := [.textItem "plain text result"] } rfl rfl⟩

/-- C6: after a successful `_ensure_session`, a second `_ensure_session`
is a no-op returning the same session object and the same state, and the
pair of calls started at most one subprocess. -/
theorem c6_ensure_session_idempotent (env : Env) (s : ClientState) (sid : Nat)
    (h : (ensure_session env s).1 = .ok (some sid)) :
    ensure_session env (ensure_session env s).2 =
      (.ok (some sid), (ensure_session env s).2) ∧
    (ensure_session env s).2.spawnCount ≤ s.spawnCount + 1 :=
  ⟨ensure_session_live env _ sid (ensure_session_ok_session env s sid h),
   ensure_session_spawn env s⟩

/-- C6, witness on a fresh client whose session start succeeds. -/
theorem c6_ensure_session_idempotent_witness :
    (ensure_session envRecovers freshClient).1 = .ok (some 1) ∧
    (ensure_session envRecovers (ensure_session envRecovers freshClient).2 =
        (.ok (some 1), (ensure_session envRecovers freshClient).2) ∧
      (ensure_session envRecovers freshClient).2.spawnCount ≤
        freshClient.spawnCount + 1) :=
  ⟨rfl, c6_ensure_session_idempotent envRecovers freshClient 1 rfl⟩

/-- C7: `_reset` is total (never raises): it always leaves the manager
ABSENT with the session and both context handles `None`, its post-state
does not depend on whether the swallowed close operations raised, and on
a state with no session and no handles it is a no-op. -/
theorem c7_reset_always_safe (env env' : Env) (s : ClientState) :
    ((reset env s).session = none ∧ (reset env s).session_cm = none ∧
      (reset env s).stdio_cm = none) ∧
    reset env s = reset env' s ∧
    (s.session = none → s.session_cm = none → s.stdio_cm = none →
      reset env s = s) :=
  ⟨⟨(reset_fields env s).1, (reset_fields env s).2.1,
    (reset_fields env s).2.2.1⟩,
   reset_env_irrelevant env env' s, reset_noop env s⟩

/-- C7, witness at a fresh (sessionless) client. -/
theorem c7_reset_always_safe_witness :
    (reset envAllCallsFail freshClient).session = none ∧
    reset envAllCallsFail freshClient = freshClient :=
  ⟨(c7_reset_always_safe envAllCallsFail envSpawnFails freshClient).1.1,
   (c7_reset_always_safe envAllCallsFail envSpawnFails freshClient).2.2
     rfl rfl rfl⟩

/-- C8: when both attempts fail, the only error surfaced is the bound
error class, with message exactly
`"Tool call failed: {tool_name} - {second attempt's cause}"` and the
causing exception chained as the cause. -/
theorem c8_error_message_contract (env : Env) (t : String) (s : ClientState)
    (e0 e1 : Exc) (s1 s2' : ClientState)
    (h0 : call_attempt env t s = (.error e0, s1))
    (h1 : call_attempt env t (reset env s1) = (.error e1, s2')) :
    call_tool env t s =
      (.error (.mk true ("Tool call failed: " ++ t ++ " - " ++ e1.msg)
        (some e1)), s2') := by
  unfold call_tool
  rw [h0]
  dsimp only
  rw [h1]

/-- C8, witness: tool `"grade_job"`, underlying cause `"boom"` on both
attempts, message exactly `"Tool call failed: grade_job - boom"`. -/
theorem c8_error_message_contract_witness :
    call_tool envAllCallsFail "grade_job" freshClient =
      (.error (.mk true "Tool call failed: grade_job - boom"
        (some (.mk false "boom" none))), stAfterSecond) :=
  c8_error_message_contract envAllCallsFail "grade_job" freshClient
    (.mk false "boom" none) (.mk false "boom" none) stAfterFirstFail
    stAfterSecond rfl rfl

/-- C9: with no live session and an unset (or non-existing) server
path, both attempts of `call_tool` fail at the configuration checks, so
the final state differs from the initial one only by the two recorded
`_start_session` invocations — zero spawns and zero channel round trips
— and the raised error is the bound class wrapping the bound
configuration error. -/
theorem c9_config_failure_two_attempts_no_spawn (env : Env) (t : String)
    (s : ClientState) (hs : s.session = none) (hcm : s.session_cm = none)
    (hst : s.stdio_cm = none)
    (hbad : pathMissing s.server_path = true ∨
      env.fileExists (env.expanduser (s.server_path.getD "")) = false) :
    call_tool env t s =
      (.error (.mk true ("Tool call failed: " ++ t ++ " - " ++ configMsg env s)
        (some (.mk true (configMsg env s) none))),
       { s with startCount := s.startCount + 2 }) := by
  have h0 : call_attempt env t s =
      (.error (.mk true (configMsg env s) none),
       { s with startCount := s.startCount + 1 }) := by
    unfold call_attempt ensure_session
    rw [start_session_config_fail env s hbad]
    rw [hs]
  have hr : reset env { s with startCount := s.startCount + 1 } =
      { s with startCount := s.startCount + 1 } :=
    reset_noop env _ hs hcm hst
  have h1 : call_attempt env t { s with startCount := s.startCount + 1 } =
      (.error (.mk true (configMsg env s) none),
       { s with startCount := s.startCount + 2 }) := by
    unfold call_attempt ensure_session
    dsimp only
    rw [start_session_config_fail env
      { s with startCount := s.startCount + 1 } hbad]
    rw [hs]
    rfl
  unfold call_tool
  rw [h0]
  dsimp only
  rw [hr, h1]
  rfl

/-- C9, witness: unset server path, tool `"list_tools"`, two start
attempts, no spawn, no round trip. -/
theorem c9_config_failure_witness :
    unconfiguredClient.session = none ∧
    call_tool envAllCallsFail "list_tools" unconfiguredClient =
      (.error (.mk true
          "Tool call failed: list_tools - MCP server path not configured"
        (some (.mk true "MCP server path not configured" none))),
       { unconfiguredClient with startCount := 2 }) ∧
    (call_tool envAllCallsFail "list_tools" unconfiguredClient).2.spawnCount
      = 0 ∧
    (call_tool envAllCallsFail "list_tools" unconfiguredClient).2.ioCount
      = 0 :=
  ⟨rfl, c9_config_failure_two_attempts_no_spawn envAllCallsFail "list_tools"
    unconfiguredClient rfl rfl rfl (Or.inl rfl), rfl, rfl⟩

/-- C10: a response whose content list is non-empty but carries no
text-bearing fragment yields `{"raw_text": ""}` — the raw-text fallback
holding the empty string — rather than the no-output marker or an
error (`json.loads("")` raises `JSONDecodeError`). -/
theorem c10_no_text_fragments_raw_empty (env : Env) (t : String)
    (s : ClientState) (sid : Nat) (r : CallToolResult)
    (hs : s.session = some sid) (hc : env.callOutcome t s.ioCount = .ok r)
    (hne : r.content ≠ [])
    (hall : ∀ c ∈ r.content, c = ContentItem.nonText)
    (hd : env.jsonDecode "" = none) :
    (call_tool env t s).1 = .ok (.obj [("raw_text", .str "")]) := by
  have hfm : r.content.filterMap itemText = [] := by
    apply List.filterMap_eq_nil_iff.mpr
    intro a ha
    rw [hall a ha]
    rfl
  have hie : r.content.isEmpty = false := by
    cases hcont : r.content with
    | nil => exact absurd hcont hne
    | cons a l => rfl
  unfold call_tool
  rw [call_attempt_live env t s sid r hs hc]
  dsimp only
  unfold decodeResult joinedText rawTextResult
  rw [hie, hfm]
  rw [show String.intercalate "\n" ([] : List String) = "" from rfl]
  simp [hd]

/-- C10, witness: two fragments with no text attribute. -/
theorem c10_no_text_fragments_raw_empty_witness :
    liveClient.session = some 1 ∧
    (call_tool envNoText "echo" liveClient).1 =
      .ok (.obj [("raw_text", .str "")]) :=
  ⟨rfl, c10_no_text_fragments_raw_empty envNoText "echo" liveClient 1
    { content := [.nonText, .nonText] } rfl rfl (by simp)
    (by decide) rfl⟩

end EdGradio
